import Mathlib

/-!
Shallow embedding of the glyph rasterization and page compositing core of
the kindle-storyteller repository (src/glyph-extraction/extract_glyphs.py
and src/glyph-extraction/render_page.py).

Python floats are modelled as rationals (ℚ); Python's `int(round(x))`
(banker's rounding, round-half-to-even) is `pyRound`; `round(x, 3)` is
`round3`.  The external vector-path parser (svgpathtools `parse_path` +
`.bbox()`) is modelled as an environment function producing a bounding
box; the external rasterizer (cairosvg `svg2png`) produces an image that
is a pure function of the SVG string and the output pixel dimensions, so
a `GlyphRender` is modelled by the data that determines that SVG string
and those dimensions, together with the `baseline_px` and `font_size`
fields of the Python dataclass.
-/

namespace KindleStoryteller

attribute [local semireducible] Rat.sub Rat.add Rat.mul Rat.inv Rat.ofScientific

/-- Python's built-in `round` to an integer: round half to even.
(`Rat.floor` is used rather than `⌊·⌋` so that the definition evaluates by
kernel reduction; they agree by `Rat.floor_def`.) -/
def pyRound (q : ℚ) : ℤ :=
  let f := Rat.floor q
  let r := q - (f : ℚ)
  if r < 1/2 then f
  else if 1/2 < r then f + 1
  else if f % 2 = 0 then f else f + 1

/-- Python's `round(q, 3)`: round half to even at the third decimal. -/
def round3 (q : ℚ) : ℚ := (pyRound (q * 1000) : ℚ) / 1000

/-- Result of `parse_path(path_data).bbox()` from svgpathtools:
`(xmin, xmax, ymin, ymax)` of the outline in font design units. -/
structure ParsedPath where
  xmin : ℚ
  xmax : ℚ
  ymin : ℚ
  ymax : ℚ
deriving DecidableEq, Repr

/-- `FontMetrics` dataclass from extract_glyphs.py. -/
structure FontMetrics where
  font_key : String
  min_y : ℚ
  max_y : ℚ
  height_px : ℚ
deriving DecidableEq, Repr

/-- `FontMetrics.unit_height` property. -/
def FontMetrics.unit_height (m : FontMetrics) : ℚ := m.max_y - m.min_y

/-- `FontMetrics.scale` property. -/
def FontMetrics.scale (m : FontMetrics) : ℚ :=
  if m.unit_height = 0 then 1 else m.height_px / m.unit_height

/-- `FontMetrics.baseline_units` property. -/
def FontMetrics.baseline_units (m : FontMetrics) : ℚ := -m.min_y

/-- `FontMetrics.unit_to_px` method. -/
def FontMetrics.unit_to_px (m : FontMetrics) (target_height : ℚ) : ℚ :=
  if m.unit_height = 0 then 1 else target_height / m.unit_height

/-- `GlyphSpec` dataclass from extract_glyphs.py. -/
structure GlyphSpec where
  font_key : String
  glyph_id : String
  advance_width : ℚ
  path_data : String
deriving DecidableEq, Repr

/-- `GlyphRender` from render_page.py.  The `image` and `mask` fields of the
Python dataclass are produced by the external rasterizer from the SVG string
(determined by `path_data`, the translations and the canvas size in design
units) and the canvas pixel dimensions, so those determining quantities
stand in for the bitmaps here; `baseline_px` and `font_size` are the
remaining dataclass fields. -/
structure GlyphRender where
  path_data : String
  translate_x : ℚ
  translate_y : ℚ
  canvas_width_units : ℚ
  canvas_height_units : ℚ
  canvas_width_px : ℤ
  canvas_height_px : ℤ
  baseline_px : ℚ
  font_size : ℚ
deriving DecidableEq, Repr

/-- `rasterize_glyph` from render_page.py, lines 45-77.  `parse` is the
external `parse_path(...).bbox()` environment (the call site has no
exception handler, so only the successful-parse behaviour is modelled). -/
def rasterize_glyph (parse : String → ParsedPath) (spec : GlyphSpec)
    (metrics : FontMetrics) (font_size : ℚ) : GlyphRender :=
  let path := parse spec.path_data
  let translate_x := -(min 0 path.xmin)
  let translate_y := metrics.baseline_units
  let xmax_shifted := path.xmax + translate_x
  let canvas_width_units := max spec.advance_width xmax_shifted
  let canvas_height_units := metrics.unit_height
  let unit_to_px := metrics.unit_to_px font_size
  let canvas_width_px := max (pyRound (canvas_width_units * unit_to_px)) 1
  let canvas_height_px := max (pyRound (canvas_height_units * unit_to_px)) 1
  let baseline_px := translate_y * unit_to_px
  { path_data := spec.path_data
    translate_x := translate_x
    translate_y := translate_y
    canvas_width_units := canvas_width_units
    canvas_height_units := canvas_height_units
    canvas_width_px := canvas_width_px
    canvas_height_px := canvas_height_px
    baseline_px := baseline_px
    font_size := font_size }

/-- The metadata record returned by `render_glyph` in extract_glyphs.py
(lines 116-169); the `path` entry (an output file path) is omitted as IO. -/
structure RenderGlyphResult where
  font_key : String
  glyph_id : String
  advance_width_units : ℚ
  canvas_width_units : ℚ
  canvas_height_units : ℚ
  canvas_width_px : ℤ
  canvas_height_px : ℤ
  xmin : ℚ
  xmax : ℚ
  ymin : ℚ
  ymax : ℚ
  translate_x : ℚ
  translate_y : ℚ
deriving DecidableEq, Repr

/-- `render_glyph` from extract_glyphs.py: the standalone glyph-preview
rasterizer.  The PNG write is IO; the returned metadata record is modelled. -/
def render_glyph (parse : String → ParsedPath) (glyph : GlyphSpec)
    (metrics : FontMetrics) : RenderGlyphResult :=
  let path := parse glyph.path_data
  let translate_x := -(min 0 path.xmin)
  let translate_y := -metrics.min_y
  let xmax_shifted := path.xmax + translate_x
  let canvas_width_units := max glyph.advance_width xmax_shifted
  let canvas_height_units := metrics.unit_height
  let scale := metrics.scale
  let canvas_width_px := max (pyRound (canvas_width_units * scale)) 1
  let canvas_height_px := max (pyRound metrics.height_px) 1
  { font_key := glyph.font_key
    glyph_id := glyph.glyph_id
    advance_width_units := glyph.advance_width
    canvas_width_units := canvas_width_units
    canvas_height_units := canvas_height_units
    canvas_width_px := canvas_width_px
    canvas_height_px := canvas_height_px
    xmin := path.xmin
    xmax := path.xmax
    ymin := path.ymin
    ymax := path.ymax
    translate_x := translate_x
    translate_y := translate_y }

/-- One entry of a font's raw glyph table: either a dict of type "path"
(with optional `path` and `advanceWidth` fields) or anything else
(non-dict, or a dict whose `type` is not "path"). -/
inductive GlyphPayload where
  | pathGlyph (path : Option String) (advanceWidth : Option ℚ)
  | other
deriving DecidableEq, Repr

/-- One font entry of glyphs.json: `fontKey`, optional `height`, and the
raw glyph table as an association list (`glyphs.items()`). -/
structure FontEntry where
  fontKey : String
  height : Option ℚ
  glyphs : List (String × GlyphPayload)
deriving DecidableEq, Repr

/-- One step of the min_y/max_y accumulation in `build_font_metrics`
(extract_glyphs.py lines 81-98).  `parse` returns `none` when
`parse_path` raises or `.bbox()` raises ValueError (both are skipped). -/
def bfmStep (parse : String → Option ParsedPath) (acc : Option ℚ × Option ℚ)
    (pg : String × GlyphPayload) : Option ℚ × Option ℚ :=
  match pg.2 with
  | .other => acc
  | .pathGlyph pd _ =>
    match pd with
    | none => acc
    | some s =>
      if s.isEmpty then acc
      else
        match parse s with
        | none => acc
        | some p =>
          let new_min := match acc.1 with | none => p.ymin | some m => min m p.ymin
          let new_max := match acc.2 with | none => p.ymax | some m => max m p.ymax
          (some new_min, some new_max)

/-- `build_font_metrics` from extract_glyphs.py, lines 77-113. -/
def build_font_metrics (parse : String → Option ParsedPath)
    (entry : FontEntry) : Option FontMetrics :=
  match entry.glyphs.foldl (bfmStep parse) (none, none) with
  | (some min_y, some max_y) =>
    let height_raw := entry.height.getD 0
    let height_px := if height_raw ≤ 0 then max_y - min_y else height_raw
    some { font_key := entry.fontKey, min_y := min_y, max_y := max_y,
           height_px := height_px }
  | _ => none

/-- One child of a page in page_data: a run dict.  Optional fields model
`run.get(...)`; `glyphs` and `xPosition` default to `[]` when absent, so
they are plain lists. -/
structure RunData where
  type : String
  fontKey : Option String
  glyphs : List String
  xPosition : List ℚ
  transform : Option (List ℚ)
  fontSize : Option ℚ
deriving DecidableEq, Repr

/-- One page of page_data_0_5.json. -/
structure PageData where
  width : Option ℚ
  height : Option ℚ
  children : List RunData
deriving DecidableEq, Repr

/-- `run.get("transform", [1.0, 0.0, 0.0, 1.0, 0.0, 0.0])`. -/
def runTransform (run : RunData) : List ℚ :=
  run.transform.getD [1, 0, 0, 1, 0, 0]

/-- `float(transform[i]) if len(transform) > i else 0.0`. -/
def transElem (t : List ℚ) (i : ℕ) : ℚ :=
  if h : i < t.length then t.get ⟨i, h⟩ else 0

/-- The run's x translation (render_page.py line 128). -/
def runXOffset (run : RunData) : ℚ := transElem (runTransform run) 4

/-- The run's y translation (render_page.py line 129). -/
def runYOffset (run : RunData) : ℚ := transElem (runTransform run) 5

/-- `float(run.get("fontSize", metrics.height_px))` (render_page.py
line 130). -/
def runFontSize (run : RunData) (metrics : FontMetrics) : ℚ :=
  run.fontSize.getD metrics.height_px

/-- x-position padding (render_page.py lines 122-125): when the xPosition
list is shorter than the glyph list, replicate the last x-position. -/
def padXPositions (xs : List ℚ) (n : ℕ) : List ℚ :=
  if xs.length < n then xs ++ List.replicate (n - xs.length) (xs.getLastD 0)
  else xs

/-- `left = int(round(x_offset + float(x_pos)))` (render_page.py
line 144). -/
def pasteLeft (x_offset x_pos : ℚ) : ℤ := pyRound (x_offset + x_pos)

/-- `top = int(round(y_offset - render.baseline_px))` (render_page.py
line 145). -/
def pasteTop (y_offset : ℚ) (render : GlyphRender) : ℤ :=
  pyRound (y_offset - render.baseline_px)

/-- A cache key: `(spec.font_key, spec.glyph_id, round(font_size, 3))`
(render_page.py line 138). -/
def cacheKey (spec : GlyphSpec) (font_size : ℚ) : String × String × ℚ :=
  (spec.font_key, spec.glyph_id, round3 font_size)

/-- The per-page glyph cache `glyph_cache`, a dict keyed by `cacheKey`;
insertion is modelled by consing (keys are only inserted when absent). -/
abbrev GlyphCache := List ((String × String × ℚ) × GlyphRender)

/-- `glyph_cache.get(key)`. -/
def cacheGet (c : GlyphCache) (k : String × String × ℚ) : Option GlyphRender :=
  match c with
  | [] => none
  | e :: rest => if e.1 = k then some e.2 else cacheGet rest k

/-- The cache lookup/render/store sequence of render_page.py lines
138-142.  The Bool records whether `rasterize_glyph` was invoked. -/
def getOrRender (parse : String → ParsedPath) (c : GlyphCache)
    (spec : GlyphSpec) (metrics : FontMetrics) (font_size : ℚ) :
    GlyphRender × GlyphCache × Bool :=
  match cacheGet c (cacheKey spec font_size) with
  | some render => (render, c, false)
  | none =>
    let render := rasterize_glyph parse spec metrics font_size
    (render, (cacheKey spec font_size, render) :: c, true)

/-- One paste of a glyph bitmap onto the page canvas
(`canvas.paste(render.image, (left, top), render.mask)`). -/
structure PasteOp where
  glyph_id : String
  left : ℤ
  top : ℤ
  render : GlyphRender
deriving DecidableEq, Repr

/-- The body of the per-glyph loop of render_page.py lines 134-147 for one
`(glyph_id, x_pos)` pair: look up the spec (skip when absent), fetch or
rasterize through the cache, compute the paste position, record the paste. -/
def compositePair (parse : String → ParsedPath)
    (gm : String → String → Option GlyphSpec) (fk : String)
    (metrics : FontMetrics) (font_size x_offset y_offset : ℚ)
    (acc : GlyphCache × List PasteOp) (p : String × ℚ) :
    GlyphCache × List PasteOp :=
  match gm fk p.1 with
  | none => acc
  | some spec =>
    let st := getOrRender parse acc.1 spec metrics font_size
    let left := pasteLeft x_offset p.2
    let top := pasteTop y_offset st.1
    (st.2.1, acc.2 ++ [{ glyph_id := spec.glyph_id, left := left, top := top,
                         render := st.1 }])

/-- The per-run loop body of render_page.py lines 108-147: skip non-run
children, runs whose font has no metrics, and runs with no glyphs or no
x-positions; otherwise pad x-positions, read the transform translation and
font size, and composite every `(glyph_id, x_pos)` pair through the cache.
`mm` is `metrics_map` and `gm` is `glyph_map` (with `.get(font_key, {})`
modelled by `gm` returning `none` for unknown fonts). -/
def processRun (parse : String → ParsedPath)
    (mm : String → Option FontMetrics)
    (gm : String → String → Option GlyphSpec)
    (cache : GlyphCache) (run : RunData) : GlyphCache × List PasteOp :=
  if run.type ≠ "run" then (cache, [])
  else
    match run.fontKey with
    | none => (cache, [])
    | some fk =>
      match mm fk with
      | none => (cache, [])
      | some metrics =>
        if run.glyphs = [] ∨ run.xPosition = [] then (cache, [])
        else
          let x_positions := padXPositions run.xPosition run.glyphs.length
          let x_offset := runXOffset run
          let y_offset := runYOffset run
          let font_size := runFontSize run metrics
          (run.glyphs.zip x_positions).foldl
            (compositePair parse gm fk metrics font_size x_offset y_offset)
            (cache, [])

/-- The two fatal error classes of `render_page`: IndexError (page index)
and ValueError (page dimensions). -/
inductive RenderError where
  | indexError (msg : String)
  | valueError (msg : String)
deriving DecidableEq, Repr

/-- True exactly on an IndexError result. -/
def isIndexError {α : Type} : Except RenderError α → Bool
  | .error (.indexError _) => true
  | _ => false

/-- Python list subscription `l[i]` with negative-index wraparound;
`none` models the IndexError raised for an index out of [-len, len). -/
def pyListGet (l : List PageData) (i : ℤ) : Option PageData :=
  if 0 ≤ i then l.get? i.toNat
  else if 0 ≤ i + l.length then l.get? (i + l.length).toNat
  else none

/-- `render_page` from render_page.py, lines 80-152, after the IO
preamble (file-existence checks and JSON loading are IO; `metrics_map`,
`glyph_map` and `page_data` are taken as inputs).  Returns the canvas
dimensions and the ordered list of paste operations composited onto the
white canvas; the PNG write is IO and omitted. -/
def render_page (parse : String → ParsedPath)
    (mm : String → Option FontMetrics)
    (gm : String → String → Option GlyphSpec)
    (pages : List PageData) (page_index : ℤ) :
    Except RenderError (ℤ × ℤ × List PasteOp) :=
  if (pages.length : ℤ) ≤ page_index then
    .error (.indexError "page_index out of bounds")
  else
    match pyListGet pages page_index with
    | none => .error (.indexError "list index out of range")
    | some page =>
      let width := pyRound (page.width.getD 0)
      let height := pyRound (page.height.getD 0)
      if width ≤ 0 ∨ height ≤ 0 then
        .error (.valueError "Invalid page dimensions")
      else
        let st := page.children.foldl
          (fun (acc : GlyphCache × List PasteOp) run =>
            let s := processRun parse mm gm acc.1 run
            (s.1, acc.2 ++ s.2)) ([], [])
        .ok (width, height, st.2)

/-! Concrete fixtures used to instantiate the theorems below. -/

/-- A font with one catalogued glyph, used for the fontSize fallback claim. -/
def exSpec1 : GlyphSpec := ⟨"F1", "g1", 10, "p"⟩

/-- Parse environment returning a unit-square bounding box. -/
def exParse1 : String → ParsedPath := fun _ => ⟨0, 1, 0, 1⟩

/-- Metrics with a payload pixel height of 20. -/
def exMetrics1 : FontMetrics := ⟨"F1", 0, 10, 20⟩

/-- A run whose fontSize field is present and equal to 0. -/
def exRun1 : RunData := ⟨"run", some "F1", ["g1"], [5], some [1, 0, 0, 1, 0, 0], some 0⟩

/-- Glyph catalog holding exactly exSpec1. -/
def exGm1 : String → String → Option GlyphSpec :=
  fun fk gid => if fk = "F1" ∧ gid = "g1" then some exSpec1 else none

/-- Metrics map holding exactly exMetrics1. -/
def exMm1 : String → Option FontMetrics :=
  fun fk => if fk = "F1" then some exMetrics1 else none

/-- The single paste produced by compositing exRun1 (glyph "g1" rendered at
font size 0, the literal value of the run's fontSize field). -/
def exOp1 : PasteOp :=
  { glyph_id := "g1", left := 5, top := 0,
    render := { path_data := "p", translate_x := 0, translate_y := 0,
                canvas_width_units := 10, canvas_height_units := 10,
                canvas_width_px := 1, canvas_height_px := 1,
                baseline_px := 0, font_size := 0 } }

/-- A valid 10x10 page with no children. -/
def exPage2 : PageData := ⟨some 10, some 10, []⟩

/-- Trivial parse environment for page-level fixtures. -/
def exParse2 : String → ParsedPath := fun _ => ⟨0, 1, 0, 1⟩

/-- Empty metrics map. -/
def exMm2 : String → Option FontMetrics := fun _ => none

/-- Empty glyph catalog. -/
def exGm2 : String → String → Option GlyphSpec := fun _ _ => none

/-- Glyph spec for the cache memoization witness. -/
def exSpec4 : GlyphSpec := ⟨"F4", "g4", 3, "d4"⟩

/-- Metrics for the cache memoization witness. -/
def exMetrics4 : FontMetrics := ⟨"F4", -1, 4, 12⟩

/-- Parse environment for the cache memoization witness. -/
def exParse4 : String → ParsedPath := fun _ => ⟨0, 2, -1, 4⟩

/-- A page whose width field is absent. -/
def exPage5 : PageData := ⟨none, some 10, []⟩

/-- A one-glyph font entry for the metrics builder witness. -/
def exEntry7 : FontEntry :=
  { fontKey := "F7", height := some 20,
    glyphs := [("g", .pathGlyph (some "d") (some 10))] }

/-- Parse environment whose bounding box is (0, 2, -1, 3). -/
def exParse7 : String → Option ParsedPath := fun _ => some ⟨0, 2, -1, 3⟩

/-- The metrics built from exEntry7 under exParse7. -/
def exMetrics7 : FontMetrics := ⟨"F7", -1, 3, 20⟩

/-- Specs for a three-glyph run whose middle glyph id is uncatalogued. -/
def exSpecA9 : GlyphSpec := ⟨"F9", "a", 2, "da"⟩

/-- Second catalogued spec of the missing-glyph fixture. -/
def exSpecB9 : GlyphSpec := ⟨"F9", "b", 2, "db"⟩

/-- Parse environment for the missing-glyph fixture. -/
def exParse9 : String → ParsedPath := fun _ => ⟨0, 1, 0, 2⟩

/-- Metrics for the missing-glyph fixture. -/
def exMetrics9 : FontMetrics := ⟨"F9", 0, 2, 8⟩

/-- Catalog resolving "a" and "b" but not "x". -/
def exGm9 : String → String → Option GlyphSpec :=
  fun fk gid =>
    if fk = "F9" ∧ gid = "a" then some exSpecA9
    else if fk = "F9" ∧ gid = "b" then some exSpecB9
    else none

/-- Metrics map for the missing-glyph fixture. -/
def exMm9 : String → Option FontMetrics :=
  fun fk => if fk = "F9" then some exMetrics9 else none

/-- A run referencing glyph id "x", which the catalog does not hold. -/
def exRun9 : RunData :=
  ⟨"run", some "F9", ["a", "x", "b"], [1, 2, 3], some [1, 0, 0, 1, 0, 0], some 8⟩

/-- A valid page carrying exRun9. -/
def exPage9 : PageData := ⟨some 30, some 20, [exRun9]⟩

/-- Glyph spec for the preview-agreement witness. -/
def exSpec10 : GlyphSpec := ⟨"F10", "g", 4, "d10"⟩

/-- Metrics with strictly positive unit height for the preview-agreement
witness. -/
def exMetrics10 : FontMetrics := ⟨"F10", -2, 5, 20⟩

/-- Parse environment for the preview-agreement witness. -/
def exParse10 : String → ParsedPath := fun _ => ⟨-1, 3, -2, 5⟩

/-! Theorems. -/

/-- C6: for every glyph spec, font metrics and target font size, the
rasterizer's computed canvas width and height in pixels are both at least 1,
even when the outline's bounding box has zero area or the font's
unit_height is 0. -/
theorem c6_canvas_px_at_least_one (parse : String → ParsedPath)
    (spec : GlyphSpec) (metrics : FontMetrics) (font_size : ℚ) :
    1 ≤ (rasterize_glyph parse spec metrics font_size).canvas_width_px ∧
    1 ≤ (rasterize_glyph parse spec metrics font_size).canvas_height_px :=
  ⟨le_max_right _ _, le_max_right _ _⟩

/-- C3: two glyphs of the same font rasterized at the same font size and
composited with the same transform translation get the same paste
coordinate `top`, so `top + baseline_px` is constant across glyphs of that
font and size, regardless of the glyphs' individual extents. -/
theorem c3_shared_baseline (parse : String → ParsedPath)
    (spec1 spec2 : GlyphSpec) (metrics : FontMetrics) (font_size y_offset : ℚ) :
    pasteTop y_offset (rasterize_glyph parse spec1 metrics font_size) =
      pasteTop y_offset (rasterize_glyph parse spec2 metrics font_size) ∧
    (pasteTop y_offset (rasterize_glyph parse spec1 metrics font_size) : ℚ) +
        (rasterize_glyph parse spec1 metrics font_size).baseline_px =
      (pasteTop y_offset (rasterize_glyph parse spec2 metrics font_size) : ℚ) +
        (rasterize_glyph parse spec2 metrics font_size).baseline_px := by
  have hb : (rasterize_glyph parse spec1 metrics font_size).baseline_px =
      (rasterize_glyph parse spec2 metrics font_size).baseline_px := rfl
  constructor
  · unfold pasteTop
    rw [hb]
  · unfold pasteTop
    rw [hb]

/-- C10: for a font with strictly positive unit height, the page-render
rasterizer invoked at the font's own height_px and the standalone
glyph-preview rasterizer agree on both translations, the canvas size in
design units, and the canvas pixel dimensions. -/
theorem c10_preview_agreement (parse : String → ParsedPath)
    (spec : GlyphSpec) (metrics : FontMetrics)
    (h : 0 < metrics.unit_height) :
    (rasterize_glyph parse spec metrics metrics.height_px).translate_x =
      (render_glyph parse spec metrics).translate_x ∧
    (rasterize_glyph parse spec metrics metrics.height_px).translate_y =
      (render_glyph parse spec metrics).translate_y ∧
    (rasterize_glyph parse spec metrics metrics.height_px).canvas_width_units =
      (render_glyph parse spec metrics).canvas_width_units ∧
    (rasterize_glyph parse spec metrics metrics.height_px).canvas_height_units =
      (render_glyph parse spec metrics).canvas_height_units ∧
    (rasterize_glyph parse spec metrics metrics.height_px).canvas_width_px =
      (render_glyph parse spec metrics).canvas_width_px ∧
    (rasterize_glyph parse spec metrics metrics.height_px).canvas_height_px =
      (render_glyph parse spec metrics).canvas_height_px := by
  have hne : metrics.unit_height ≠ 0 := ne_of_gt h
  refine ⟨rfl, rfl, rfl, rfl, rfl, ?_⟩
  show max (pyRound (metrics.unit_height * metrics.unit_to_px metrics.height_px)) 1 =
    max (pyRound metrics.height_px) 1
  rw [FontMetrics.unit_to_px, if_neg hne, mul_div_cancel₀ _ hne]

/-- Witness for C10 at a font of unit height 7. -/
theorem c10_preview_agreement_witness :
    0 < exMetrics10.unit_height ∧
    ((rasterize_glyph exParse10 exSpec10 exMetrics10 exMetrics10.height_px).translate_x =
      (render_glyph exParse10 exSpec10 exMetrics10).translate_x ∧
    (rasterize_glyph exParse10 exSpec10 exMetrics10 exMetrics10.height_px).translate_y =
      (render_glyph exParse10 exSpec10 exMetrics10).translate_y ∧
    (rasterize_glyph exParse10 exSpec10 exMetrics10 exMetrics10.height_px).canvas_width_units =
      (render_glyph exParse10 exSpec10 exMetrics10).canvas_width_units ∧
    (rasterize_glyph exParse10 exSpec10 exMetrics10 exMetrics10.height_px).canvas_height_units =
      (render_glyph exParse10 exSpec10 exMetrics10).canvas_height_units ∧
    (rasterize_glyph exParse10 exSpec10 exMetrics10 exMetrics10.height_px).canvas_width_px =
      (render_glyph exParse10 exSpec10 exMetrics10).canvas_width_px ∧
    (rasterize_glyph exParse10 exSpec10 exMetrics10 exMetrics10.height_px).canvas_height_px =
      (render_glyph exParse10 exSpec10 exMetrics10).canvas_height_px) :=
  ⟨by decide, c10_preview_agreement exParse10 exSpec10 exMetrics10 (by decide)⟩

/-- C4: requesting a (font_key, glyph_id, font_size) through the glyph
cache a second time — also with a different raw font size equal after
rounding to 3 decimals — returns the entry cached by the first request,
leaves the cache unchanged, and does not invoke the rasterizer again; the
first request invokes the rasterizer exactly when its key is not yet
cached. -/
theorem c4_cache_memoization (parse : String → ParsedPath) (c : GlyphCache)
    (spec : GlyphSpec) (metrics : FontMetrics) (fs1 fs2 : ℚ)
    (h : round3 fs1 = round3 fs2) :
    (getOrRender parse (getOrRender parse c spec metrics fs1).2.1
        spec metrics fs2).1 =
      (getOrRender parse c spec metrics fs1).1 ∧
    (getOrRender parse (getOrRender parse c spec metrics fs1).2.1
        spec metrics fs2).2.1 =
      (getOrRender parse c spec metrics fs1).2.1 ∧
    (getOrRender parse (getOrRender parse c spec metrics fs1).2.1
        spec metrics fs2).2.2 = false ∧
    (cacheGet c (cacheKey spec fs1) = none →
      (getOrRender parse c spec metrics fs1).2.2 = true) := by
  have hkey : cacheKey spec fs2 = cacheKey spec fs1 := by
    unfold cacheKey
    rw [h]
  unfold getOrRender
  rw [hkey]
  cases hc : cacheGet c (cacheKey spec fs1) with
  | some r => simp [hc]
  | none => simp [hc, cacheGet]

/-- Witness for C4: two raw font sizes 2.0004 and 2.0001, equal after
rounding to 3 decimals, on an initially empty cache. -/
theorem c4_cache_memoization_witness :
    (getOrRender exParse4
        (getOrRender exParse4 [] exSpec4 exMetrics4 (20004/10000)).2.1
        exSpec4 exMetrics4 (20001/10000)).1 =
      (getOrRender exParse4 [] exSpec4 exMetrics4 (20004/10000)).1 ∧
    (getOrRender exParse4
        (getOrRender exParse4 [] exSpec4 exMetrics4 (20004/10000)).2.1
        exSpec4 exMetrics4 (20001/10000)).2.1 =
      (getOrRender exParse4 [] exSpec4 exMetrics4 (20004/10000)).2.1 ∧
    (getOrRender exParse4
        (getOrRender exParse4 [] exSpec4 exMetrics4 (20004/10000)).2.1
        exSpec4 exMetrics4 (20001/10000)).2.2 = false ∧
    (getOrRender exParse4 [] exSpec4 exMetrics4 (20004/10000)).2.2 = true := by
  have h := c4_cache_memoization exParse4 [] exSpec4 exMetrics4
    (20004/10000) (20001/10000) (by decide)
  exact ⟨h.1, h.2.1, h.2.2.1, h.2.2.2 (by decide)⟩

/-- C8: a non-empty xPosition sequence shorter than the glyph sequence is
padded by replicating its last value: the padded sequence has exactly the
glyph-sequence length, the original values are an unchanged initial
segment, and the added tail is copies of the last x-position. -/
theorem c8_pad_x_positions (xs : List ℚ) (n : ℕ) (hne : xs ≠ [])
    (hlt : xs.length < n) :
    (padXPositions xs n).length = n ∧
    (padXPositions xs n).take xs.length = xs ∧
    (padXPositions xs n).drop xs.length =
      List.replicate (n - xs.length) (xs.getLast hne) := by
  unfold padXPositions
  rw [if_pos hlt]
  refine ⟨?_, ?_, ?_⟩
  · rw [List.length_append, List.length_replicate]
    omega
  · rw [List.take_left]
  · rw [List.drop_left]
    rw [List.getLastD_eq_getLast?, List.getLast?_eq_getLast xs hne]
    rfl

/-- Witness for C8 at xs = [1, 2] and a glyph count of 4. -/
theorem c8_pad_x_positions_witness :
    (padXPositions [1, 2] 4).length = 4 ∧
    (padXPositions [1, 2] 4).take ([1, 2] : List ℚ).length = [1, 2] ∧
    (padXPositions [1, 2] 4).drop ([1, 2] : List ℚ).length =
      List.replicate (4 - ([1, 2] : List ℚ).length)
        (([1, 2] : List ℚ).getLast (by decide)) :=
  c8_pad_x_positions [1, 2] 4 (by decide) (by decide)

/-- The min_y/max_y accumulation of build_font_metrics keeps the running
minimum below the running maximum, provided every parsed bounding box is
well-formed (ymin ≤ ymax). -/
lemma bfm_fold_le (parse : String → Option ParsedPath)
    (hwf : ∀ s p, parse s = some p → p.ymin ≤ p.ymax)
    (l : List (String × GlyphPayload)) :
    ∀ acc : Option ℚ × Option ℚ,
      (acc = (none, none) ∨ ∃ a b, acc = (some a, some b) ∧ a ≤ b) →
      (l.foldl (bfmStep parse) acc = (none, none) ∨
        ∃ a b, l.foldl (bfmStep parse) acc = (some a, some b) ∧ a ≤ b) := by
  induction l with
  | nil => intro acc h; exact h
  | cons hd tl ih =>
    intro acc hacc
    rw [List.foldl_cons]
    apply ih
    obtain ⟨gid, pay⟩ := hd
    unfold bfmStep
    cases pay with
    | other => exact hacc
    | pathGlyph pd aw =>
      dsimp only
      cases pd with
      | none => exact hacc
      | some s =>
        dsimp only
        by_cases hs : s.isEmpty
        · rw [if_pos hs]; exact hacc
        · rw [if_neg hs]
          cases hp : parse s with
          | none => simp only [hp]; exact hacc
          | some p =>
            simp only [hp]
            have hyp := hwf s p hp
            rcases hacc with h0 | ⟨a, b, hab, hle⟩
            · rw [h0]
              exact Or.inr ⟨p.ymin, p.ymax, rfl, hyp⟩
            · rw [hab]
              exact Or.inr ⟨min a p.ymin, max b p.ymax, rfl,
                le_trans (le_trans (min_le_left a p.ymin) hle) (le_max_left b p.ymax)⟩

/-- C7: for a font entry with at least one parsable path glyph (so
build_font_metrics returns metrics), unit_height is non-negative, and the
scale is strictly positive whenever unit_height is, because a missing or
non-positive payload height is replaced by the unit height. -/
theorem c7_font_metrics_sane (parse : String → Option ParsedPath)
    (entry : FontEntry) (m : FontMetrics)
    (hwf : ∀ s p, parse s = some p → p.ymin ≤ p.ymax)
    (hm : build_font_metrics parse entry = some m) :
    0 ≤ m.unit_height ∧ (0 < m.unit_height → 0 < m.scale) := by
  unfold build_font_metrics at hm
  have hinv := bfm_fold_le parse hwf entry.glyphs (none, none) (Or.inl rfl)
  rcases hinv with h0 | ⟨a, b, hab, hle⟩
  · rw [h0] at hm
    exact absurd hm (by simp)
  · rw [hab] at hm
    simp only [Option.some.injEq] at hm
    subst hm
    constructor
    · show (0 : ℚ) ≤ b - a
      linarith
    · intro hpos
      have hpos' : (0 : ℚ) < b - a := hpos
      unfold FontMetrics.scale
      rw [if_neg (ne_of_gt hpos)]
      show (0 : ℚ) < (if entry.height.getD 0 ≤ 0 then b - a else entry.height.getD 0) / (b - a)
      by_cases hh : entry.height.getD 0 ≤ 0
      · rw [if_pos hh]
        exact div_pos hpos' hpos'
      · rw [if_neg hh]
        exact div_pos (lt_of_not_le hh) hpos'

/-- Witness for C7 at a one-glyph font entry with bounding box
(0, 2, -1, 3) and payload height 20. -/
theorem c7_font_metrics_sane_witness :
    0 ≤ exMetrics7.unit_height ∧
    (0 < exMetrics7.unit_height → 0 < exMetrics7.scale) :=
  c7_font_metrics_sane exParse7 exEntry7 exMetrics7
    (fun s p h => by
      simp only [exParse7, Option.some.injEq] at h
      rw [← h]
      decide)
    (by decide)

/-- A successful cache lookup returns a render stored in the cache. -/
lemma cacheGet_mem (c : GlyphCache) (k : String × String × ℚ)
    (r : GlyphRender) (h : cacheGet c k = some r) : ∃ e ∈ c, e.2 = r := by
  induction c with
  | nil => exact absurd h (by simp [cacheGet])
  | cons e rest ih =>
    rw [cacheGet] at h
    by_cases he : e.1 = k
    · rw [if_pos he] at h
      exact ⟨e, List.mem_cons_self e rest, Option.some.inj h⟩
    · rw [if_neg he] at h
      obtain ⟨e', he', hr⟩ := ih h
      exact ⟨e', List.mem_cons_of_mem e he', hr⟩

/-- Compositing a list of (glyph_id, x_pos) pairs at a fixed font size
keeps every cache entry and every emitted render at that font size. -/
lemma compositeFold_font_size (parse : String → ParsedPath)
    (gm : String → String → Option GlyphSpec) (fk : String)
    (metrics : FontMetrics) (fs xo yo : ℚ) (pairs : List (String × ℚ)) :
    ∀ (cache : GlyphCache) (ops : List PasteOp),
      (∀ e ∈ cache, e.2.font_size = fs) →
      (∀ op ∈ ops, op.render.font_size = fs) →
      (∀ e ∈ (pairs.foldl (compositePair parse gm fk metrics fs xo yo)
          (cache, ops)).1, e.2.font_size = fs) ∧
      (∀ op ∈ (pairs.foldl (compositePair parse gm fk metrics fs xo yo)
          (cache, ops)).2, op.render.font_size = fs) := by
  induction pairs with
  | nil => intro cache ops hc ho; exact ⟨hc, ho⟩
  | cons p tl ih =>
    intro cache ops hc ho
    rw [List.foldl_cons]
    rcases hgm : gm fk p.1 with _ | spec
    · rw [compositePair, hgm]
      exact ih cache ops hc ho
    · rw [compositePair, hgm]
      dsimp only
      rcases hcg : cacheGet cache (cacheKey spec fs) with _ | r
      · rw [getOrRender, hcg]
        apply ih
        · intro e he
          rcases List.mem_cons.1 he with he0 | he1
          · rw [he0]; rfl
          · exact hc e he1
        · intro op hop
          rcases List.mem_append.1 hop with hop0 | hop1
          · exact ho op hop0
          · rw [List.mem_singleton.1 hop1]; rfl
      · rw [getOrRender, hcg]
        obtain ⟨e, he, hr⟩ := cacheGet_mem cache (cacheKey spec fs) r hcg
        apply ih
        · exact hc
        · intro op hop
          rcases List.mem_append.1 hop with hop0 | hop1
          · exact ho op hop0
          · rw [List.mem_singleton.1 hop1]
            show r.font_size = fs
            rw [← hr]
            exact hc e he

/-- C1 (amended): the font size used to rasterize a run's glyphs is the
run's fontSize field whenever that field is present — including a present
value of 0 or a negative value, which is used as-is — and only falls back
to the owning font's height_px when the field is absent: every paste
produced for the run (starting from an empty glyph cache) carries that
font size. -/
theorem c1_run_font_size (parse : String → ParsedPath)
    (mm : String → Option FontMetrics)
    (gm : String → String → Option GlyphSpec) (run : RunData)
    (fk : String) (metrics : FontMetrics)
    (hfk : run.fontKey = some fk) (hm : mm fk = some metrics) :
    ∀ op ∈ (processRun parse mm gm [] run).2,
      op.render.font_size = run.fontSize.getD metrics.height_px := by
  unfold processRun
  by_cases hty : run.type ≠ "run"
  · rw [if_pos hty]
    intro op hop
    exact absurd hop (by simp)
  · rw [if_neg hty]
    simp only [hfk, hm]
    by_cases hge : run.glyphs = [] ∨ run.xPosition = []
    · rw [if_pos hge]
      intro op hop
      exact absurd hop (by simp)
    · rw [if_neg hge]
      have h := (compositeFold_font_size parse gm fk metrics
        (runFontSize run metrics) (runXOffset run) (runYOffset run)
        (run.glyphs.zip (padXPositions run.xPosition run.glyphs.length))
        [] [] (by simp) (by simp)).2
      exact h

/-- Counterexample to C1 as stated: a run whose fontSize field is present
and equal to 0, owned by a font with height_px = 20, is rasterized at font
size 0, not at 20. -/
theorem c1_counterexample :
    exRun1.fontSize = some 0 ∧ exMetrics1.height_px = 20 ∧
    (processRun exParse1 exMm1 exGm1 [] exRun1).2.map
      (fun op => op.render.font_size) = [0] := by
  refine ⟨rfl, rfl, ?_⟩
  decide

/-- Witness for the amended C1 at the concrete run exRun1. -/
theorem c1_run_font_size_witness :
    exOp1 ∈ (processRun exParse1 exMm1 exGm1 [] exRun1).2 ∧
    exOp1.render.font_size = exRun1.fontSize.getD exMetrics1.height_px :=
  ⟨by decide,
   c1_run_font_size exParse1 exMm1 exGm1 exRun1 "F1" exMetrics1 rfl
     (by decide) exOp1 (by decide)⟩

/-- Python negative list indexing: an index in [-len, 0) reads the same
element as index + len. -/
lemma pyListGet_neg (pages : List PageData) (i : ℤ) (hi : i < 0)
    (h : 0 ≤ i + pages.length) :
    pyListGet pages i = pyListGet pages (i + pages.length) := by
  unfold pyListGet
  rw [if_neg (not_le.2 hi), if_pos h, if_pos h]

/-- Counterexample to C2 as stated: on a one-page list, page index -1 is
outside 0..n-1 yet render_page succeeds (Python negative indexing selects
the last page instead of raising). -/
theorem c2_counterexample :
    (render_page exParse2 exMm2 exGm2 [exPage2] (-1)).isOk = true := by
  decide

/-- C2 (amended): a page index ≥ the number of pages fails with an
out-of-range error, as does any index below -n (the list access raises);
but a negative index in [-n, -1] does not fail: it renders the page
selected by Python negative indexing, i.e. behaves exactly as index
index + n. -/
theorem c2_page_index_range (parse : String → ParsedPath)
    (mm : String → Option FontMetrics)
    (gm : String → String → Option GlyphSpec)
    (pages : List PageData) (i : ℤ) :
    (((pages.length : ℤ) ≤ i ∨ i + pages.length < 0) →
      isIndexError (render_page parse mm gm pages i) = true) ∧
    (i < 0 → 0 ≤ i + pages.length →
      render_page parse mm gm pages i =
        render_page parse mm gm pages (i + pages.length)) := by
  constructor
  · intro h
    rcases h with h1 | h2
    · unfold render_page
      rw [if_pos h1]
      rfl
    · have hneg : i < 0 := by
        have : (0 : ℤ) ≤ pages.length := Int.ofNat_nonneg _
        omega
      have hnle : ¬ (pages.length : ℤ) ≤ i := by
        have : (0 : ℤ) ≤ pages.length := Int.ofNat_nonneg _
        omega
      unfold render_page
      rw [if_neg hnle]
      have hget : pyListGet pages i = none := by
        unfold pyListGet
        rw [if_neg (not_le.2 hneg), if_neg (not_le.2 h2)]
      rw [hget]
      rfl
  · intro hneg hge
    have hnle1 : ¬ (pages.length : ℤ) ≤ i := by
      have : (0 : ℤ) ≤ pages.length := Int.ofNat_nonneg _
      omega
    have hnle2 : ¬ (pages.length : ℤ) ≤ i + pages.length := by omega
    unfold render_page
    rw [if_neg hnle1, if_neg hnle2, pyListGet_neg pages i hneg hge]

/-- Witness for the amended C2: index 1 on a one-page list is
out-of-range, and index -1 renders the same as index -1 + 1 = 0. -/
theorem c2_page_index_range_witness :
    isIndexError (render_page exParse2 exMm2 exGm2 [exPage2] 1) = true ∧
    render_page exParse2 exMm2 exGm2 [exPage2] (-1) =
      render_page exParse2 exMm2 exGm2 [exPage2]
        (-1 + ([exPage2] : List PageData).length) :=
  ⟨(c2_page_index_range exParse2 exMm2 exGm2 [exPage2] 1).1 (by decide),
   (c2_page_index_range exParse2 exMm2 exGm2 [exPage2] (-1)).2 (by decide)
     (by decide)⟩

/-- C5: a page whose declared width or height rounds to a non-positive
integer (the absent field defaulting to 0 included) makes render_page fail
with the invalid-dimensions ValueError, producing no image. -/
theorem c5_invalid_dimensions (parse : String → ParsedPath)
    (mm : String → Option FontMetrics)
    (gm : String → String → Option GlyphSpec)
    (pages : List PageData) (i : ℤ) (page : PageData)
    (hidx : ¬ (pages.length : ℤ) ≤ i)
    (hpage : pyListGet pages i = some page)
    (hdim : pyRound (page.width.getD 0) ≤ 0 ∨ pyRound (page.height.getD 0) ≤ 0) :
    render_page parse mm gm pages i =
      .error (.valueError "Invalid page dimensions") := by
  unfold render_page
  rw [if_neg hidx]
  simp only [hpage]
  rw [if_pos hdim]

/-- Witness for C5 at a page whose width field is absent. -/
theorem c5_invalid_dimensions_witness :
    render_page exParse2 exMm2 exGm2 [exPage5] 0 =
      .error (.valueError "Invalid page dimensions") :=
  c5_invalid_dimensions exParse2 exMm2 exGm2 [exPage5] 0 exPage5
    (by decide) (by decide) (Or.inl (by decide))

/-- Compositing a run's pairs records, in order, exactly one paste for
every pair whose glyph id resolves in the catalog — pairs with an
uncatalogued id contribute nothing — whatever the starting cache. -/
lemma compositeFold_proj (parse : String → ParsedPath)
    (gm : String → String → Option GlyphSpec) (fk : String)
    (metrics : FontMetrics) (fs xo yo : ℚ) (pairs : List (String × ℚ)) :
    ∀ (cache : GlyphCache) (ops : List PasteOp),
      (pairs.foldl (compositePair parse gm fk metrics fs xo yo)
          (cache, ops)).2.map (fun op => (op.glyph_id, op.left)) =
        ops.map (fun op => (op.glyph_id, op.left)) ++
          pairs.filterMap (fun p => (gm fk p.1).map
            (fun spec => (spec.glyph_id, pasteLeft xo p.2))) := by
  induction pairs with
  | nil => intro cache ops; simp
  | cons p tl ih =>
    intro cache ops
    rw [List.foldl_cons, List.filterMap_cons]
    rcases hgm : gm fk p.1 with _ | spec
    · rw [compositePair, hgm]
      exact ih cache ops
    · rw [compositePair, hgm]
      dsimp only
      rw [ih]
      rw [List.map_append]
      rw [List.append_assoc]
      rfl

/-- C9: a run referencing a glyph id absent from the font's catalog does
not abort the page: exactly that glyph is skipped, every other glyph of
the run is still composited at its position and in order, and render_page
still completes with a valid image whenever the page index and dimensions
are valid. -/
theorem c9_missing_glyph_tolerance (parse : String → ParsedPath)
    (mm : String → Option FontMetrics)
    (gm : String → String → Option GlyphSpec)
    (cache : GlyphCache) (run : RunData) (fk : String) (metrics : FontMetrics)
    (pages : List PageData) (i : ℤ) (page : PageData)
    (hty : run.type = "run") (hfk : run.fontKey = some fk)
    (hm : mm fk = some metrics)
    (hg : run.glyphs ≠ []) (hx : run.xPosition ≠ [])
    (hidx : ¬ (pages.length : ℤ) ≤ i)
    (hpage : pyListGet pages i = some page)
    (hw : 0 < pyRound (page.width.getD 0))
    (hh : 0 < pyRound (page.height.getD 0)) :
    (processRun parse mm gm cache run).2.map (fun op => (op.glyph_id, op.left)) =
      (run.glyphs.zip (padXPositions run.xPosition run.glyphs.length)).filterMap
        (fun p => (gm fk p.1).map
          (fun spec => (spec.glyph_id, pasteLeft (runXOffset run) p.2))) ∧
    (render_page parse mm gm pages i).isOk = true := by
  constructor
  · unfold processRun
    rw [if_neg (by simp [hty])]
    simp only [hfk, hm]
    rw [if_neg (not_or.2 ⟨hg, hx⟩)]
    rw [compositeFold_proj]
    simp
  · unfold render_page
    rw [if_neg hidx]
    simp only [hpage]
    rw [if_neg (not_or.2 ⟨not_le.2 hw, not_le.2 hh⟩)]
    rfl

/-- Witness for C9: a three-glyph run whose middle id "x" is uncatalogued
composites exactly its first and third glyphs, and the page still
renders. -/
theorem c9_missing_glyph_tolerance_witness :
    ((processRun exParse9 exMm9 exGm9 [] exRun9).2.map
        (fun op => (op.glyph_id, op.left)) =
      (exRun9.glyphs.zip
          (padXPositions exRun9.xPosition exRun9.glyphs.length)).filterMap
        (fun p => (exGm9 "F9" p.1).map
          (fun spec => (spec.glyph_id, pasteLeft (runXOffset exRun9) p.2)))) ∧
    (render_page exParse9 exMm9 exGm9 [exPage9] 0).isOk = true :=
  c9_missing_glyph_tolerance exParse9 exMm9 exGm9 [] exRun9 "F9" exMetrics9
    [exPage9] 0 exPage9 rfl rfl (by decide) (by decide) (by decide)
    (by decide) (by decide) (by decide) (by decide)

end KindleStoryteller
